import Mathlib

/-!
JNI bridges of `android_net_NetUtils.cpp` and `android_os_Performance.cpp`.

A shallow embedding of the two JNI glue files and the properties proved about them.

* The DHCP socket filter of `android_net_utils_attachDhcpFilter` is embedded as the list of
  `sock_filter` instructions the function builds, together with an interpreter for the classic
  BPF instructions.
* The calls a bridge function makes on the Java `DhcpResults` object are recorded in a call log;
  the object itself is an arbitrary function from the calls made so far and the current call to
  the boolean the method returns.
* External native functions (`dhcp_stop`, `dhcp_get_results`, ...) are parameters.
* The `char` arrays handed to the native layer are lists of cells; a store past the end of an
  array has no result.
-/

namespace android

/-! ## Classic BPF: instruction encoding (`linux/filter.h`) -/

/-- One classic BPF instruction, `struct sock_filter`: `code` is a `__u16`, `jt` and `jf` are
`__u8`, `k` is a `__u32`. -/
structure sock_filter where
  code : Nat
  jt : Nat
  jf : Nat
  k : Nat
deriving DecidableEq, Repr

/-- The program descriptor handed to `setsockopt`, `struct sock_fprog`. -/
structure sock_fprog where
  len : Nat
  filter : List sock_filter
deriving DecidableEq, Repr

/-- Modelled from the spec: instruction class `BPF_LD` of the absent header `linux/filter.h`. -/
def BPF_LD : Nat := 0x00
/-- Modelled from the spec: instruction class `BPF_LDX` of the absent header `linux/filter.h`. -/
def BPF_LDX : Nat := 0x01
/-- Modelled from the spec: instruction class `BPF_JMP` of the absent header `linux/filter.h`. -/
def BPF_JMP : Nat := 0x05
/-- Modelled from the spec: instruction class `BPF_RET` of the absent header `linux/filter.h`. -/
def BPF_RET : Nat := 0x06
/-- Modelled from the spec: load size `BPF_H` (half word) of the absent header. -/
def BPF_H : Nat := 0x08
/-- Modelled from the spec: load size `BPF_B` (byte) of the absent header. -/
def BPF_B : Nat := 0x10
/-- Modelled from the spec: addressing mode `BPF_ABS` of the absent header. -/
def BPF_ABS : Nat := 0x20
/-- Modelled from the spec: addressing mode `BPF_IND` of the absent header. -/
def BPF_IND : Nat := 0x40
/-- Modelled from the spec: addressing mode `BPF_MSH` of the absent header. -/
def BPF_MSH : Nat := 0xa0
/-- Modelled from the spec: jump condition `BPF_JEQ` of the absent header. -/
def BPF_JEQ : Nat := 0x10
/-- Modelled from the spec: jump condition `BPF_JSET` of the absent header. -/
def BPF_JSET : Nat := 0x40
/-- Modelled from the spec: operand source `BPF_K` of the absent header. -/
def BPF_K : Nat := 0x00

/-- Modelled from the spec: the macro `BPF_STMT(code, k)` of the absent header
`linux/filter.h`, which expands to `{ (unsigned short)(code), 0, 0, k }`. -/
def BPF_STMT (code k : Nat) : sock_filter :=
  ⟨code % 2 ^ 16, 0, 0, k % 2 ^ 32⟩

/-- Modelled from the spec: the macro `BPF_JUMP(code, k, jt, jf)` of the absent header
`linux/filter.h`, which expands to `{ (unsigned short)(code), jt, jf, k }`. -/
def BPF_JUMP (code k jt jf : Nat) : sock_filter :=
  ⟨code % 2 ^ 16, jt % 2 ^ 8, jf % 2 ^ 8, k % 2 ^ 32⟩

/-- The layout constants `attachDhcpFilter` takes from the system headers:
`sizeof(ether_header)`, `offsetof(iphdr, protocol)`, `offsetof(iphdr, frag_off)`,
`offsetof(udphdr, dest)` and `IPPROTO_UDP`. -/
structure HeaderLayout where
  sizeof_ether_header : Nat
  offsetof_iphdr_protocol : Nat
  offsetof_iphdr_frag_off : Nat
  offsetof_udphdr_dest : Nat
  IPPROTO_UDP : Nat
deriving DecidableEq, Repr

/-- Modelled from the spec: the values of the layout constants in the absent system headers
(`sizeof(ether_header) = 14`, `offsetof(iphdr, protocol) = 9`, `offsetof(iphdr, frag_off) = 6`,
`offsetof(udphdr, dest) = 2`, `IPPROTO_UDP = 17`). -/
def linuxLayout : HeaderLayout := ⟨14, 9, 6, 2, 17⟩

/-- `static const uint16_t kDhcpClientPort = 68;` -/
def kDhcpClientPort : Nat := 68

/-- The array `filter_code` of `android_net_utils_attachDhcpFilter`; the four offsets are
`uint32_t` locals. -/
def filter_code (h : HeaderLayout) : List sock_filter :=
  let ip_offset := h.sizeof_ether_header % 2 ^ 32
  let proto_offset := (ip_offset + h.offsetof_iphdr_protocol) % 2 ^ 32
  let flags_offset := (ip_offset + h.offsetof_iphdr_frag_off) % 2 ^ 32
  let dport_indirect_offset := (ip_offset + h.offsetof_udphdr_dest) % 2 ^ 32
  [ -- Check the protocol is UDP.
    BPF_STMT (BPF_LD ||| BPF_B ||| BPF_ABS) proto_offset,
    BPF_JUMP (BPF_JMP ||| BPF_JEQ ||| BPF_K) h.IPPROTO_UDP 0 6,
    -- Check this is not a fragment.
    BPF_STMT (BPF_LD ||| BPF_H ||| BPF_ABS) flags_offset,
    BPF_JUMP (BPF_JMP ||| BPF_JSET ||| BPF_K) 0x1fff 4 0,
    -- Get the IP header length.
    BPF_STMT (BPF_LDX ||| BPF_B ||| BPF_MSH) ip_offset,
    -- Check the destination port.
    BPF_STMT (BPF_LD ||| BPF_H ||| BPF_IND) dport_indirect_offset,
    BPF_JUMP (BPF_JMP ||| BPF_JEQ ||| BPF_K) kDhcpClientPort 0 1,
    -- Accept or reject.
    BPF_STMT (BPF_RET ||| BPF_K) 0xffff,
    BPF_STMT (BPF_RET ||| BPF_K) 0 ]

/-- What `android_net_utils_attachDhcpFilter` did: the descriptor and the `sock_fprog` it passed
to `setsockopt(fd, SOL_SOCKET, SO_ATTACH_FILTER, ...)`, and whether it threw a
`java/net/SocketException`. -/
structure AttachResult where
  fd : Int
  prog : sock_fprog
  threw : Bool
deriving DecidableEq, Repr

/-- `android_net_utils_attachDhcpFilter`. `fd` is the descriptor extracted from `javaFd`;
`setsockopt` is the system call, giving its return code for the descriptor and program. -/
def android_net_utils_attachDhcpFilter (h : HeaderLayout)
    (setsockopt : Int → sock_fprog → Int) (fd : Int) : AttachResult :=
  let code := filter_code h
  let filter : sock_fprog := ⟨code.length, code⟩
  if setsockopt fd filter ≠ 0 then ⟨fd, filter, true⟩ else ⟨fd, filter, false⟩

/-! ## Classic BPF: interpreter -/

/-- A frame: the bytes of the packet the filter is run on. -/
abbrev Frame := List (Fin 256)

/-- Modelled from the spec: the byte load `P[k:1]` of classic BPF; `none` when the offset is
outside the frame. -/
def ld_b (P : Frame) (k : Nat) : Option Nat :=
  match P[k]? with
  | some b => some b.val
  | none => none

/-- Modelled from the spec: the half-word load `P[k:2]` of classic BPF, big-endian; `none` when
one of the two bytes is outside the frame. -/
def ld_h (P : Frame) (k : Nat) : Option Nat :=
  match P[k]?, P[k + 1]? with
  | some b0, some b1 => some (b0.val * 256 + b1.val)
  | _, _ => none

/-- Modelled from the spec: the word load `P[k:4]` of classic BPF, big-endian; `none` when one
of the four bytes is outside the frame. -/
def ld_w (P : Frame) (k : Nat) : Option Nat :=
  match ld_h P k, ld_h P (k + 2) with
  | some h0, some h1 => some (h0 * 65536 + h1)
  | _, _ => none

/-- The effect of one classic BPF instruction: go on at `pc` with new registers `A` and `X`, or
stop and return a value. -/
inductive StepResult where
  | next (pc A X : Nat)
  | ret (v : Nat)
deriving DecidableEq, Repr

/-- The jump target of a conditional jump at `pc`: `jt` instructions ahead of the next one when
the condition holds, `jf` ahead otherwise. -/
def jump (pc : Nat) (cond : Bool) (ins : sock_filter) (A X : Nat) : StepResult :=
  .next (pc + 1 + (if cond then ins.jt else ins.jf)) A X

/-- A load into the accumulator: a load outside the frame rejects (returns 0). -/
def load_A (pc X : Nat) (v : Option Nat) : StepResult :=
  match v with
  | some a => .next (pc + 1) a X
  | none => .ret 0

/-- Modelled from the spec: one instruction of the classic BPF machine that the kernel runs on a
frame for a socket with an attached filter (the machine is not part of these sources). `A` and
`X` are the 32-bit accumulator and index register, `pc` the index of the instruction. A load
outside the frame makes the filter return 0 (reject), a `BPF_RET` returns its operand, every jump
is forward. Opcodes are decoded from their numeric value; an opcode outside the listed ones
(arithmetic, scratch memory) rejects. -/
def bpf_step (ins : sock_filter) (pc A X : Nat) (P : Frame) : StepResult :=
  let c := ins.code
  let k := ins.k
  -- BPF_LD | BPF_W | BPF_ABS
  if c = 0x20 then load_A pc X (ld_w P k)
  -- BPF_LD | BPF_H | BPF_ABS
  else if c = 0x28 then load_A pc X (ld_h P k)
  -- BPF_LD | BPF_B | BPF_ABS
  else if c = 0x30 then load_A pc X (ld_b P k)
  -- BPF_LD | BPF_W | BPF_IND
  else if c = 0x40 then load_A pc X (ld_w P ((X + k) % 2 ^ 32))
  -- BPF_LD | BPF_H | BPF_IND
  else if c = 0x48 then load_A pc X (ld_h P ((X + k) % 2 ^ 32))
  -- BPF_LD | BPF_B | BPF_IND
  else if c = 0x50 then load_A pc X (ld_b P ((X + k) % 2 ^ 32))
  -- BPF_LD | BPF_IMM
  else if c = 0x00 then .next (pc + 1) k X
  -- BPF_LD | BPF_W | BPF_LEN
  else if c = 0x80 then .next (pc + 1) (P.length % 2 ^ 32) X
  -- BPF_LDX | BPF_IMM
  else if c = 0x01 then .next (pc + 1) A k
  -- BPF_LDX | BPF_W | BPF_LEN
  else if c = 0x81 then .next (pc + 1) A (P.length % 2 ^ 32)
  -- BPF_LDX | BPF_B | BPF_MSH
  else if c = 0xb1 then
    match ld_b P k with
    | some v => .next (pc + 1) A (4 * (v &&& 0x0f))
    | none => .ret 0
  -- BPF_JMP | BPF_JA
  else if c = 0x05 then .next (pc + 1 + k) A X
  -- BPF_JMP | BPF_JEQ | BPF_K
  else if c = 0x15 then jump pc (A == k) ins A X
  -- BPF_JMP | BPF_JGT | BPF_K
  else if c = 0x25 then jump pc (decide (A > k)) ins A X
  -- BPF_JMP | BPF_JGE | BPF_K
  else if c = 0x35 then jump pc (decide (A ≥ k)) ins A X
  -- BPF_JMP | BPF_JSET | BPF_K
  else if c = 0x45 then jump pc (A &&& k != 0) ins A X
  -- BPF_JMP | BPF_JEQ | BPF_X
  else if c = 0x1d then jump pc (A == X) ins A X
  -- BPF_JMP | BPF_JGT | BPF_X
  else if c = 0x2d then jump pc (decide (A > X)) ins A X
  -- BPF_JMP | BPF_JGE | BPF_X
  else if c = 0x3d then jump pc (decide (A ≥ X)) ins A X
  -- BPF_JMP | BPF_JSET | BPF_X
  else if c = 0x4d then jump pc (A &&& X != 0) ins A X
  -- BPF_RET | BPF_K
  else if c = 0x06 then .ret k
  -- BPF_RET | BPF_A
  else if c = 0x16 then .ret A
  -- BPF_MISC | BPF_TAX
  else if c = 0x07 then .next (pc + 1) A A
  -- BPF_MISC | BPF_TXA
  else if c = 0x87 then .next (pc + 1) X X
  else .ret 0

/-- Modelled from the spec: the run of the classic BPF machine from instruction `pc`. Running
off the end of the program rejects. The result is `none` only when `fuel` runs out. -/
def bpf_run : Nat → List sock_filter → Nat → Nat → Nat → Frame → Option Nat
  | 0, _, _, _, _, _ => none
  | fuel + 1, prog, pc, A, X, P =>
    match prog[pc]? with
    | none => some 0
    | some ins =>
      match bpf_step ins pc A X P with
      | .ret v => some v
      | .next pc1 A1 X1 => bpf_run fuel prog pc1 A1 X1 P

/-- Running a filter program on a frame: start at instruction 0 with `A = X = 0`. Every
instruction moves `pc` forward, so as many steps as the program has instructions suffice. -/
def run_filter (prog : List sock_filter) (P : Frame) : Option Nat :=
  bpf_run prog.length prog 0 0 0 P

/-- The filter `android_net_utils_attachDhcpFilter` attaches with the Linux header layout. -/
def dhcp_filter : List sock_filter := filter_code linuxLayout

/-- The frames the filter is meant to accept, in the words of the property: the byte at offset
23 is 17 (UDP), the big-endian half word at offset 20 has its low 13 bits clear, and the
big-endian half word at offset `16 + 4 * (byte at offset 14 AND 0x0f)` is 68. Each of the three
needs the bytes it reads to be inside the frame. -/
def dhcp_client_match (P : Frame) : Bool :=
  ld_b P 23 == some 17 &&
  (match ld_h P 20 with
   | some w => w &&& 0x1fff == 0
   | none => false) &&
  (match ld_b P 14 with
   | some b => ld_h P (16 + 4 * (b &&& 0x0f)) == some 68
   | none => false)

/-- What "IPv4 DHCP-client traffic" asks of a frame: EtherType (bytes 12-13) `0x0800`, IP protocol
(byte 23) UDP, and UDP destination port (the half word 2 bytes into the UDP header, which starts
`4 * IHL` bytes after offset 14) equal to 68. -/
def is_ipv4_dhcp_client (P : Frame) : Bool :=
  ld_h P 12 == some 0x0800 &&
  ld_b P 23 == some 17 &&
  (match ld_b P 14 with
   | some b => ld_h P (16 + 4 * (b &&& 0x0f)) == some 68
   | none => false)

/-- An Ethernet frame with EtherType `0x86dd` (IPv6): broadcast destination, then a 40-byte IPv6
header with flow label `0x00044`, next header 0, hop limit 0 and a source address whose second
byte is `0x11`. -/
def ipv6_frame : Frame :=
  [0xff, 0xff, 0xff, 0xff, 0xff, 0xff, 0x02, 0x00, 0x00, 0x00, 0x00, 0x01, 0x86, 0xdd,
   0x60, 0x00, 0x00, 0x44, 0x00, 0x00, 0x00, 0x00,
   0xfe, 0x11, 0, 0, 0, 0, 0, 0, 0, 0, 0, 0, 0, 0, 0, 1,
   0xff, 0x02, 0, 0, 0, 0, 0, 0, 0, 0, 0, 0, 0, 0, 0, 1]

/-- A minimal IPv4/UDP frame to the DHCP client port: EtherType `0x0800`, IHL 5, protocol 17,
fragment field 0, UDP source port 67 and destination port 68. -/
def dhcp_offer_frame : Frame :=
  [0xff, 0xff, 0xff, 0xff, 0xff, 0xff, 0x02, 0x00, 0x00, 0x00, 0x00, 0x01, 0x08, 0x00,
   0x45, 0x00, 0x00, 0x1c, 0x00, 0x00, 0x00, 0x00, 0x40, 0x11, 0x00, 0x00,
   10, 0, 0, 1, 255, 255, 255, 255,
   0x00, 0x43, 0x00, 0x44, 0x00, 0x08, 0x00, 0x00]

/-! ## The Java `DhcpResults` object and the JNI calls on it -/

/-- A `uint32_t` value: an unsigned 32-bit word. -/
abbrev uint32_t := Fin (2 ^ 32)

/-- A `uint32_t` handed through the variable argument list of `CallBooleanMethod` or
`CallVoidMethod` to a Java method whose parameter is registered as `I`: the method receives the
same 32-bit word as a signed `jint`, the value itself below `2 ^ 31` and the value minus
`2 ^ 32` from there on. -/
def jint_of_uint32 (w : uint32_t) : Int :=
  if w.val < 2 ^ 31 then (w.val : Int) else (w.val : Int) - 2 ^ 32

/-- A method invocation on the `DhcpResults` object through `CallVoidMethod` or
`CallBooleanMethod`, with its arguments; the methods are those whose ids
`register_android_net_NetworkUtils` stores in `dhcpResultsFieldIds` and the bridge invokes. -/
inductive Call where
  | clear
  | setIpAddress (addrString : String) (prefixLength : Int)
  | setGateway (addrString : String)
  | addDns (addrString : String)
  | setDomains (domains : String)
  | setServerAddress (addrString : String)
  | setLeaseDuration (lease : Int)
  | setVendorInfo (vendorInfo : String)
  | clearV6
  | setIpV6Address (addrString : String) (prefixLength : Int)
  | addDnsV6 (addrString : String)
deriving DecidableEq, Repr

/-- The methods registered with a `Z` (boolean) return type: `setIpAddress`, `setGateway`,
`addDns`, `setServerAddress`, `setIpV6Address`, `addDnsV6`. Their `true` means failure. -/
def Call.returnsBoolean : Call → Bool
  | .setIpAddress _ _ => true
  | .setGateway _ => true
  | .addDns _ => true
  | .setServerAddress _ => true
  | .setIpV6Address _ _ => true
  | .addDnsV6 _ => true
  | _ => false

/-- The two methods that empty the object: `clear` and `clearV6`. Every other method is a setter
or an add. -/
def Call.isClear : Call → Bool
  | .clear => true
  | .clearV6 => true
  | _ => false

/-- The Java `DhcpResults` object as the bridge sees it: the boolean a method returns, given the
invocations made on the object earlier in this bridge call and the current invocation. For the
`void` methods the value is not looked at. -/
abbrev DhcpResults := List Call → Call → Bool

/-- The local state of a bridge function while it populates the object: the `int result` local
and the invocations made on the object so far. -/
structure Jni where
  result : Int
  calls : List Call
deriving DecidableEq, Repr

/-- What a bridge function hands back: the `jboolean` it returns and the invocations it made on
the object, in order. -/
structure JniReturn where
  ret : Bool
  calls : List Call
deriving DecidableEq, Repr

/-- The statement `env->CallVoidMethod(dhcpResults, method, args)`. -/
def CallVoidMethod (s : Jni) (c : Call) : Jni :=
  ⟨s.result, s.calls ++ [c]⟩

/-- The statement `result = env->CallBooleanMethod(dhcpResults, method, args)`: the `jboolean`
the method returns is stored in `result`. -/
def CallBooleanMethod (dhcpResults : DhcpResults) (s : Jni) (c : Call) : Jni :=
  ⟨if dhcpResults s.calls c then 1 else 0, s.calls ++ [c]⟩

/-- What `dhcp_get_results` leaves behind: its return code and the contents of the buffers and
integers it was given pointers to (`dns1` .. `dns4` are the four entries of the `dns` array). -/
structure DhcpGetResults where
  result : Int
  ipaddr : String
  gateway : String
  prefixLength : uint32_t
  dns1 : String
  dns2 : String
  dns3 : String
  dns4 : String
  server : String
  lease : uint32_t
  vendorInfo : String
  domains : String
  mtu : String
deriving DecidableEq, Repr

/-- The statement `if (result == 0) { body }`. -/
def if_ok (s : Jni) (body : Jni → Jni) : Jni :=
  if s.result = 0 then body s else s

/-- The statement `return (jboolean)(result == 0);`, together with the invocations made. -/
def return_ok (s : Jni) : JniReturn :=
  ⟨s.result == 0, s.calls⟩

/-- `android_net_utils_getDhcpResults`. `nameStr` is what `GetStringUTFChars(ifname)` gives
(`none` for `NULL`), `dhcp_get_results` the external native function. -/
def android_net_utils_getDhcpResults (dhcp_get_results : String → DhcpGetResults)
    (dhcpResults : DhcpResults) (nameStr : Option String) : JniReturn :=
  match nameStr with
  | none => ⟨false, []⟩
  | some name =>
    let r := dhcp_get_results name
    let s : Jni := ⟨r.result, []⟩
    let s := if_ok s fun s =>
      let s := CallVoidMethod s .clear
      CallBooleanMethod dhcpResults s
        (.setIpAddress r.ipaddr (jint_of_uint32 r.prefixLength))
    let s := if_ok s fun s =>
      CallBooleanMethod dhcpResults s (.setGateway r.gateway)
    let s := if_ok s fun s =>
      CallBooleanMethod dhcpResults s (.addDns r.dns1)
    let s := if_ok s fun s =>
      let s := CallVoidMethod s (.setDomains r.domains)
      let s := CallBooleanMethod dhcpResults s (.addDns r.dns2)
      if_ok s fun s =>
        let s := CallBooleanMethod dhcpResults s (.addDns r.dns3)
        if_ok s fun s =>
          CallBooleanMethod dhcpResults s (.addDns r.dns4)
    let s := if_ok s fun s =>
      CallBooleanMethod dhcpResults s (.setServerAddress r.server)
    let s := if_ok s fun s =>
      let s := CallVoidMethod s (.setLeaseDuration (jint_of_uint32 r.lease))
      CallVoidMethod s (.setVendorInfo r.vendorInfo)
    return_ok s

/-- `android_net_utils_startDhcp`. -/
def android_net_utils_startDhcp (dhcp_start : String → Int) (nameStr : Option String) : Bool :=
  match nameStr with
  | none => false
  | some name => if dhcp_start name ≠ 0 then false else true

/-- `android_net_utils_startDhcpRenew`. -/
def android_net_utils_startDhcpRenew (dhcp_start_renew : String → Int)
    (nameStr : Option String) : Bool :=
  match nameStr with
  | none => false
  | some name => if dhcp_start_renew name ≠ 0 then false else true

/-- `android_net_utils_stopDhcp`; the name is forwarded without a `NULL` check. -/
def android_net_utils_stopDhcp (dhcp_stop : Option String → Int)
    (nameStr : Option String) : Bool :=
  let result := dhcp_stop nameStr
  result == 0

/-- `android_net_utils_releaseDhcpLease`; the name is forwarded without a `NULL` check. -/
def android_net_utils_releaseDhcpLease (dhcp_release_lease : Option String → Int)
    (nameStr : Option String) : Bool :=
  let result := dhcp_release_lease nameStr
  result == 0

/-- `android_net_utils_stopDhcpv6`; the name is forwarded without a `NULL` check. -/
def android_net_utils_stopDhcpv6 (dhcpv6_stop : Option String → Int)
    (nameStr : Option String) : Bool :=
  let result := dhcpv6_stop nameStr
  result == 0

/-- The C++ conversion `(jboolean) !x` of an `int`: true exactly when `x` is zero. -/
def lnot (x : Int) : Bool := !(x != 0)

/-- `android_net_utils_bindProcessToNetwork`. -/
def android_net_utils_bindProcessToNetwork (setNetworkForProcess : Int → Int)
    (netId : Int) : Bool :=
  lnot (setNetworkForProcess netId)

/-- `android_net_utils_bindProcessToNetworkForHostResolution`. -/
def android_net_utils_bindProcessToNetworkForHostResolution (setNetworkForResolv : Int → Int)
    (netId : Int) : Bool :=
  lnot (setNetworkForResolv netId)

/-- `android_net_utils_protectFromVpn`. -/
def android_net_utils_protectFromVpn (protectFromVpn : Int → Int) (socket : Int) : Bool :=
  lnot (protectFromVpn socket)

/-- `android_net_utils_queryUserAccess`. -/
def android_net_utils_queryUserAccess (queryUserAccess : Int → Int → Int)
    (uid netId : Int) : Bool :=
  lnot (queryUserAccess uid netId)

/-- What `dhcpv6_do_request` and `dhcpv6_do_request_renew` leave behind: the return code and the
contents of the three buffers and of `lease`. -/
structure Dhcpv6Results where
  result : Int
  ipaddr : String
  dns1 : String
  dns2 : String
  lease : uint32_t
deriving DecidableEq, Repr

/-- `android_net_utils_runDhcpv6Common`. `pid` is the value the uninitialised local `pid` happens
to hold when it is passed by value to `dhcpv6_do_request_renew`. -/
def android_net_utils_runDhcpv6Common (dhcpv6_do_request : String → Dhcpv6Results)
    (dhcpv6_do_request_renew : String → Nat → Dhcpv6Results) (pid : Nat)
    (dhcpResults : DhcpResults) (nameStr : Option String) (renew : Bool) : JniReturn :=
  match nameStr with
  | none => ⟨false, []⟩
  | some name =>
    let r := if renew then dhcpv6_do_request_renew name pid else dhcpv6_do_request name
    let s : Jni := ⟨r.result, []⟩
    let s := if_ok s fun s =>
      let s := CallVoidMethod s .clearV6
      let s := CallVoidMethod s .clear
      let s := CallBooleanMethod dhcpResults s (.setIpV6Address r.ipaddr 64)
      let s := CallBooleanMethod dhcpResults s (.addDnsV6 r.dns1)
      let s := if_ok s fun s =>
        CallBooleanMethod dhcpResults s (.addDnsV6 r.dns2)
      -- the two remaining `if (result == 0)` blocks hold only comments
      let s := if_ok s fun s => s
      if_ok s fun s => s
    return_ok s

/-- `android_net_utils_runDhcpv6`. -/
def android_net_utils_runDhcpv6 (dhcpv6_do_request : String → Dhcpv6Results)
    (dhcpv6_do_request_renew : String → Nat → Dhcpv6Results) (pid : Nat)
    (dhcpResults : DhcpResults) (nameStr : Option String) : JniReturn :=
  android_net_utils_runDhcpv6Common dhcpv6_do_request dhcpv6_do_request_renew pid dhcpResults
    nameStr false

/-- `android_net_utils_runDhcpv6Renew`. -/
def android_net_utils_runDhcpv6Renew (dhcpv6_do_request : String → Dhcpv6Results)
    (dhcpv6_do_request_renew : String → Nat → Dhcpv6Results) (pid : Nat)
    (dhcpResults : DhcpResults) (nameStr : Option String) : JniReturn :=
  android_net_utils_runDhcpv6Common dhcpv6_do_request dhcpv6_do_request_renew pid dhcpResults
    nameStr true

/-- The invocations `android_net_utils_getDhcpResults` makes when nothing fails, in source
order, for what `dhcp_get_results` produced. -/
def getDhcpResults_plan (r : DhcpGetResults) : List Call :=
  [.clear, .setIpAddress r.ipaddr (jint_of_uint32 r.prefixLength), .setGateway r.gateway,
   .addDns r.dns1, .setDomains r.domains, .addDns r.dns2, .addDns r.dns3, .addDns r.dns4,
   .setServerAddress r.server, .setLeaseDuration (jint_of_uint32 r.lease),
   .setVendorInfo r.vendorInfo]

/-- Reference behaviour "every failure is immediately surfaced": make the planned invocations in
order after the invocations `done`, stop right after the first boolean method that returns
`true`, and return `true` exactly when none did. -/
def invoke_until_failure (dhcpResults : DhcpResults) : List Call → List Call → JniReturn
  | done, [] => ⟨true, done⟩
  | done, c :: rest =>
    if c.returnsBoolean && dhcpResults done c then ⟨false, done ++ [c]⟩
    else invoke_until_failure dhcpResults (done ++ [c]) rest

/-- The invocations of `setIpV6Address`. -/
def Call.isSetIpV6Address : Call → Bool
  | .setIpV6Address _ _ => true
  | _ => false

/-- A result of `dhcp_get_results` with return code 0, used to run the bridge on. -/
def sample_dhcp : DhcpGetResults :=
  ⟨0, "192.168.1.10", "192.168.1.1", 24, "8.8.8.8", "8.8.4.4", "", "", "192.168.1.1", 86400,
   "", "lan", "1500"⟩

/-- A result of `dhcpv6_do_request` with return code 0, used to run the bridge on. -/
def sample_dhcpv6 : Dhcpv6Results :=
  ⟨0, "2001:db8::10", "2001:db8::53", "2001:db8::54", 3600⟩

/-- A `DhcpResults` object all of whose boolean methods succeed (return `false`). -/
def accept_all : DhcpResults := fun _ _ => false

/-- A result of `dhcp_get_results` with return code 0 and the lease `0xffffffff`, the DHCP value
for a lease that never expires. -/
def infinite_lease_dhcp : DhcpGetResults :=
  ⟨0, "192.168.1.10", "192.168.1.1", 24, "8.8.8.8", "8.8.4.4", "", "", "192.168.1.1",
   0xffffffff, "", "lan", "1500"⟩

/-- A result of `dhcp_get_results` with a non-zero return code. -/
def failed_dhcp : DhcpGetResults :=
  ⟨-1, "", "", 0, "", "", "", "", "", 0, "", "", ""⟩

/-- A result of `dhcpv6_do_request` with return code 0 that left the zero-filled address buffer
as it was: the address string is empty, the two DNS servers are set. -/
def dhcpv6_without_address : Dhcpv6Results :=
  ⟨0, "", "2001:db8::53", "2001:db8::54", 3600⟩

/-- A `DhcpResults` object whose `setIpV6Address` fails (returns `true`) on the empty address
string, which is not a numeric address; all other invocations succeed. -/
def reject_empty_address : DhcpResults := fun _ c =>
  match c with
  | .setIpV6Address addrString _ => addrString == ""
  | _ => false

/-! ## The power hint bridge (`android_os_Performance.cpp`) -/

/-- A loaded power HAL module, `struct power_module`, as far as the bridge looks at it: which
module it is, and whether its `init` and `powerHint` hooks are non-null function pointers. -/
structure power_module where
  id : Nat
  init : Bool
  powerHint : Bool
deriving DecidableEq, Repr

/-- Modelled from the spec: the two hint identifiers the bridge uses, from the absent header
`hardware/power.h`; their numeric values play no role. -/
inductive power_hint_t where
  | POWER_HINT_ACTIVITY
  | POWER_HINT_TOUCH
deriving DecidableEq, Repr

/-- The `void *data` argument of a `powerHint` call: `NULL`, a pointer to the `int data_param`,
or a pointer to a `struct power_interaction_data` with its `cpu_nr` and `duration`. -/
inductive HintData where
  | null
  | data_param (value : Int)
  | power_interaction_data (cpu_nr duration : Int)
deriving DecidableEq, Repr

/-- A call into the HAL module: `module->init(module)` or
`module->powerHint(module, hint, data)`. -/
inductive HalCall where
  | init (module : power_module)
  | powerHint (module : power_module) (hint : power_hint_t) (data : HintData)
deriving DecidableEq, Repr

/-- The process-wide state of the bridge: `static struct power_module* gPowerModule`, `none` for
the null pointer. -/
structure Performance where
  gPowerModule : Option power_module
deriving DecidableEq, Repr

/-- The state a bridge function leaves and the HAL calls it made, in order. -/
structure PerformanceStep where
  state : Performance
  hal : List HalCall
deriving DecidableEq, Repr

/-- The state before `nativeInit`: a static pointer starts out null. -/
def Performance.initial : Performance := ⟨none⟩

/-- Modelled from the spec: the outcomes of the module lookup `hw_get_module` of libhardware,
which is not part of these sources. It finds and loads the module, returning 0 and storing the
module; or it returns an error code, leaving the destination as it was (no module of that name)
or null (loading failed): "fails silently into a module unavailable sentinel state". -/
inductive Lookup where
  | loaded (module : power_module)
  | not_found (err : Int)
  | load_failed (err : Int)
deriving DecidableEq, Repr

/-- Modelled from the spec: `hw_get_module(POWER_HARDWARE_MODULE_ID, &gPowerModule)` with the
given outcome: the error code it returns and the pointer it leaves in the destination. -/
def hw_get_module (outcome : Lookup) (dest : Option power_module) : Int × Option power_module :=
  match outcome with
  | .loaded m => (0, some m)
  | .not_found err => (err, dest)
  | .load_failed err => (err, none)

/-- `nativeInit`. The result is `none` when the function dereferences a null pointer (a null
`gPowerModule` or a null `init` hook after a lookup that returned 0). -/
def nativeInit (outcome : Lookup) (st : Performance) : Option PerformanceStep :=
  let (err, module) := hw_get_module outcome st.gPowerModule
  if err = 0 then
    match module with
    | some m => if m.init then some ⟨⟨some m⟩, [.init m]⟩ else none
    | none => none
  else
    some ⟨⟨module⟩, []⟩

/-- `setBoostEnable_native`. -/
def setBoostEnable_native (st : Performance) (enable : Int) : PerformanceStep :=
  let data_param := enable
  match st.gPowerModule with
  | some m =>
    if m.powerHint then
      if enable ≠ 0 then
        ⟨st, [.powerHint m .POWER_HINT_ACTIVITY (.data_param data_param)]⟩
      else
        ⟨st, [.powerHint m .POWER_HINT_ACTIVITY .null]⟩
    else ⟨st, []⟩
  | none => ⟨st, []⟩

/-- `setBoostPerformance_native`. -/
def setBoostPerformance_native (st : Performance) (cpu_nr duration : Int) : PerformanceStep :=
  match st.gPowerModule with
  | some m =>
    if m.powerHint then
      ⟨st, [.powerHint m .POWER_HINT_TOUCH (.power_interaction_data cpu_nr duration)]⟩
    else ⟨st, []⟩
  | none => ⟨st, []⟩

/-- Whether a hint call would be dropped in a state: the module handle is null or the module has
no `powerHint` hook. -/
def Performance.unavailable (st : Performance) : Bool :=
  match st.gPowerModule with
  | some m => !m.powerHint
  | none => true

/-- A power module with both hooks present, used to run the bridge on. -/
def sample_module : power_module := ⟨1, true, true⟩

/-! ## The value buffers handed to the native layer -/

/-- A `char buf[N]` local of a bridge function: one cell per byte, `none` while the byte is
uninitialised. -/
structure Buffer where
  cells : List (Option (Fin 256))
deriving DecidableEq, Repr

/-- The size `N` of the array. -/
def Buffer.capacity (buf : Buffer) : Nat := buf.cells.length

/-- The declaration `char buf[N];`. -/
def Buffer.uninitialised (N : Nat) : Buffer := ⟨List.replicate N none⟩

/-- The declaration `char buf[N] = {0};`. -/
def Buffer.zeroed (N : Nat) : Buffer := ⟨List.replicate N (some 0)⟩

/-- A write of the bytes `data` through a pointer to the start of the buffer, which is all the
native functions are given. The result is `none` when the write runs past the end of the
array. -/
def Buffer.store (buf : Buffer) (data : List (Fin 256)) : Option Buffer :=
  if data.length ≤ buf.capacity then
    some ⟨data.map some ++ buf.cells.drop data.length⟩
  else none

/-- The ten `char` arrays of `android_net_utils_getDhcpResults`, whose addresses are passed to
`dhcp_get_results` (`dns1` .. `dns4` through the array `dns`). -/
structure DhcpBuffers where
  ipaddr : Buffer
  gateway : Buffer
  dns1 : Buffer
  dns2 : Buffer
  dns3 : Buffer
  dns4 : Buffer
  server : Buffer
  vendorInfo : Buffer
  domains : Buffer
  mtu : Buffer
deriving DecidableEq, Repr

/-- The declarations of the ten arrays in `android_net_utils_getDhcpResults`, each
`char x[PROPERTY_VALUE_MAX];` and uninitialised. `PROPERTY_VALUE_MAX` is a macro of the absent
header `cutils/properties.h`. -/
def getDhcpResults_buffers (PROPERTY_VALUE_MAX : Nat) : DhcpBuffers :=
  { ipaddr := .uninitialised PROPERTY_VALUE_MAX
    gateway := .uninitialised PROPERTY_VALUE_MAX
    dns1 := .uninitialised PROPERTY_VALUE_MAX
    dns2 := .uninitialised PROPERTY_VALUE_MAX
    dns3 := .uninitialised PROPERTY_VALUE_MAX
    dns4 := .uninitialised PROPERTY_VALUE_MAX
    server := .uninitialised PROPERTY_VALUE_MAX
    vendorInfo := .uninitialised PROPERTY_VALUE_MAX
    domains := .uninitialised PROPERTY_VALUE_MAX
    mtu := .uninitialised PROPERTY_VALUE_MAX }

/-- The three `char` arrays of `android_net_utils_runDhcpv6Common`, whose addresses are passed to
`dhcpv6_do_request` or `dhcpv6_do_request_renew`. -/
structure Dhcpv6Buffers where
  ipaddr : Buffer
  dns1 : Buffer
  dns2 : Buffer
deriving DecidableEq, Repr

/-- The declarations of the three arrays in `android_net_utils_runDhcpv6Common`, each
`char x[PROPERTY_VALUE_MAX] = {0};`. -/
def runDhcpv6Common_buffers (PROPERTY_VALUE_MAX : Nat) : Dhcpv6Buffers :=
  { ipaddr := .zeroed PROPERTY_VALUE_MAX
    dns1 := .zeroed PROPERTY_VALUE_MAX
    dns2 := .zeroed PROPERTY_VALUE_MAX }

/-- What the native side has for each field `dhcp_get_results` fills in, as byte strings of any
length. -/
structure DhcpContent where
  ipaddr : List (Fin 256)
  gateway : List (Fin 256)
  dns1 : List (Fin 256)
  dns2 : List (Fin 256)
  dns3 : List (Fin 256)
  dns4 : List (Fin 256)
  server : List (Fin 256)
  vendorInfo : List (Fin 256)
  domains : List (Fin 256)
  mtu : List (Fin 256)
deriving DecidableEq, Repr

/-- What the native side has for each field the DHCPv6 requests fill in, as byte strings of any
length. -/
structure Dhcpv6Content where
  ipaddr : List (Fin 256)
  dns1 : List (Fin 256)
  dns2 : List (Fin 256)
deriving DecidableEq, Repr

/-- Modelled from the spec: the bytes the native library (`dhcp_get_results`,
`dhcpv6_do_request`, `dhcpv6_do_request_renew`, which these sources only declare and call) stores
through a value pointer for content of any length. "Buffers are bounded by a fixed maximum
property-value length": the library stores a property value, at most `PROPERTY_VALUE_MAX - 1`
bytes of the content followed by the terminating NUL. The bridge passes no length; the bound is
the shared macro. -/
def property_value (PROPERTY_VALUE_MAX : Nat) (content : List (Fin 256)) : List (Fin 256) :=
  content.take (PROPERTY_VALUE_MAX - 1) ++ [0]

/-- Modelled from the spec: the stores the absent `dhcp_get_results` makes through the ten value
pointers it is given, one property value each. The result is `none` when one of them runs past
the end of its array. -/
def dhcp_get_results_stores (PROPERTY_VALUE_MAX : Nat) (c : DhcpContent) (b : DhcpBuffers) :
    Option DhcpBuffers := do
  let ipaddr ← b.ipaddr.store (property_value PROPERTY_VALUE_MAX c.ipaddr)
  let gateway ← b.gateway.store (property_value PROPERTY_VALUE_MAX c.gateway)
  let dns1 ← b.dns1.store (property_value PROPERTY_VALUE_MAX c.dns1)
  let dns2 ← b.dns2.store (property_value PROPERTY_VALUE_MAX c.dns2)
  let dns3 ← b.dns3.store (property_value PROPERTY_VALUE_MAX c.dns3)
  let dns4 ← b.dns4.store (property_value PROPERTY_VALUE_MAX c.dns4)
  let server ← b.server.store (property_value PROPERTY_VALUE_MAX c.server)
  let vendorInfo ← b.vendorInfo.store (property_value PROPERTY_VALUE_MAX c.vendorInfo)
  let domains ← b.domains.store (property_value PROPERTY_VALUE_MAX c.domains)
  let mtu ← b.mtu.store (property_value PROPERTY_VALUE_MAX c.mtu)
  pure ⟨ipaddr, gateway, dns1, dns2, dns3, dns4, server, vendorInfo, domains, mtu⟩

/-- Modelled from the spec: the stores the absent `dhcpv6_do_request` and
`dhcpv6_do_request_renew` make through the three value pointers they are given, one property
value each. The result is `none` when one of them runs past the end of its array. -/
def dhcpv6_do_request_stores (PROPERTY_VALUE_MAX : Nat) (c : Dhcpv6Content) (b : Dhcpv6Buffers) :
    Option Dhcpv6Buffers := do
  let ipaddr ← b.ipaddr.store (property_value PROPERTY_VALUE_MAX c.ipaddr)
  let dns1 ← b.dns1.store (property_value PROPERTY_VALUE_MAX c.dns1)
  let dns2 ← b.dns2.store (property_value PROPERTY_VALUE_MAX c.dns2)
  pure ⟨ipaddr, dns1, dns2⟩

/-- Whether every array of the frame still has the given size. -/
def DhcpBuffers.all_capacity (b : DhcpBuffers) (N : Nat) : Bool :=
  b.ipaddr.capacity == N && b.gateway.capacity == N && b.dns1.capacity == N &&
  b.dns2.capacity == N && b.dns3.capacity == N && b.dns4.capacity == N &&
  b.server.capacity == N && b.vendorInfo.capacity == N && b.domains.capacity == N &&
  b.mtu.capacity == N

/-- Whether every array of the frame still has the given size. -/
def Dhcpv6Buffers.all_capacity (b : Dhcpv6Buffers) (N : Nat) : Bool :=
  b.ipaddr.capacity == N && b.dns1.capacity == N && b.dns2.capacity == N

/-- Native-side content longer than any property value: 300 bytes `0x41` for every field. -/
def long_dhcp_content : DhcpContent :=
  let long := List.replicate 300 (0x41 : Fin 256)
  ⟨long, long, long, long, long, long, long, long, long, long⟩

/-- Native-side content longer than any property value: 300 bytes `0x41` for every field. -/
def long_dhcpv6_content : Dhcpv6Content :=
  let long := List.replicate 300 (0x41 : Fin 256)
  ⟨long, long, long⟩

/-! ## `getRaFlags` -/

/-- What `read(fd, &flags, 1)` does: it fails (returns a negative length and stores nothing), it
reads nothing (returns 0 at end of file and stores nothing), or it reads one byte (returns 1 and
stores the byte in `flags`). -/
inductive ReadOutcome where
  | failed
  | nothing
  | byte (c : Fin 256)
deriving DecidableEq, Repr

/-- The length `read` returns. -/
def ReadOutcome.len : ReadOutcome → Int
  | .failed => -1
  | .nothing => 0
  | .byte _ => 1

/-- The content of the local `char flags` after the `read`: the byte read if there is one,
otherwise what the uninitialised local held. -/
def ReadOutcome.flags (stale : Fin 256) : ReadOutcome → Fin 256
  | .byte c => c
  | _ => stale

/-- `android_net_utils_getRaFlags`. `fd` is what `open` returned, `rd` what the `read` does when
it is made, and `stale` the value the uninitialised local `flags` holds before the `read`. The
character constants for the digits 0 and 2 are 48 and 50; the two comparisons come out the same
whether `char` is signed or unsigned. -/
def android_net_utils_getRaFlags (fd : Int) (rd : ReadOutcome) (stale : Fin 256) : Int :=
  if fd < 0 then
    -1
  else
    let len := rd.len
    let flags := rd.flags stale
    if len < 0 then
      -2
    else
      if flags.val ≥ 48 ∧ flags.val ≤ 50 then
        (flags.val : Int) - 48
      else
        -3

/-! # Properties -/

/-! ## The DHCP socket filter -/

theorem step_ldb_abs (k pc A X : Nat) (P : Frame) :
    bpf_step ⟨0x30, 0, 0, k⟩ pc A X P = load_A pc X (ld_b P k) := rfl
theorem step_ldh_abs (k pc A X : Nat) (P : Frame) :
    bpf_step ⟨0x28, 0, 0, k⟩ pc A X P = load_A pc X (ld_h P k) := rfl
theorem step_ldh_ind (k pc A X : Nat) (P : Frame) :
    bpf_step ⟨0x48, 0, 0, k⟩ pc A X P = load_A pc X (ld_h P ((X + k) % 2 ^ 32)) := rfl
theorem step_ldx_msh (k pc A X : Nat) (P : Frame) :
    bpf_step ⟨0xb1, 0, 0, k⟩ pc A X P =
      (match ld_b P k with
       | some v => .next (pc + 1) A (4 * (v &&& 0x0f))
       | none => .ret 0) := rfl
theorem step_jeq_k (jt jf k pc A X : Nat) (P : Frame) :
    bpf_step ⟨0x15, jt, jf, k⟩ pc A X P = .next (pc + 1 + (if A = k then jt else jf)) A X := by
  simp [bpf_step, jump]
theorem step_jset_k (jt jf k pc A X : Nat) (P : Frame) :
    bpf_step ⟨0x45, jt, jf, k⟩ pc A X P =
      .next (pc + 1 + (if A &&& k = 0 then jf else jt)) A X := by
  simp [bpf_step, jump]
theorem step_ret_k (k pc A X : Nat) (P : Frame) :
    bpf_step ⟨0x06, 0, 0, k⟩ pc A X P = .ret k := rfl



theorem bpf_run_succ (fuel : Nat) (prog : List sock_filter) (pc A X : Nat) (P : Frame)
    (ins : sock_filter) (h : prog[pc]? = some ins) :
    bpf_run (fuel + 1) prog pc A X P =
      (match bpf_step ins pc A X P with
       | .ret v => some v
       | .next pc1 A1 X1 => bpf_run fuel prog pc1 A1 X1 P) := by
  rw [bpf_run, h]

theorem dhcp_at0 (f A X : Nat) (P : Frame) :
    bpf_run (f + 1) dhcp_filter 0 A X P =
      (match ld_b P 23 with
       | some a => bpf_run f dhcp_filter 1 a X P
       | none => some 0) := by
  rw [bpf_run_succ f dhcp_filter 0 A X P ⟨0x30, 0, 0, 23⟩ (by decide), step_ldb_abs]
  cases ld_b P 23 <;> rfl

theorem dhcp_at1 (f A X : Nat) (P : Frame) :
    bpf_run (f + 1) dhcp_filter 1 A X P =
      bpf_run f dhcp_filter (if A = 17 then 2 else 8) A X P := by
  rw [bpf_run_succ f dhcp_filter 1 A X P ⟨0x15, 0, 6, 17⟩ (by decide), step_jeq_k]
  split_ifs <;> rfl

theorem dhcp_at2 (f A X : Nat) (P : Frame) :
    bpf_run (f + 1) dhcp_filter 2 A X P =
      (match ld_h P 20 with
       | some a => bpf_run f dhcp_filter 3 a X P
       | none => some 0) := by
  rw [bpf_run_succ f dhcp_filter 2 A X P ⟨0x28, 0, 0, 20⟩ (by decide), step_ldh_abs]
  cases ld_h P 20 <;> rfl

theorem dhcp_at3 (f A X : Nat) (P : Frame) :
    bpf_run (f + 1) dhcp_filter 3 A X P =
      bpf_run f dhcp_filter (if A &&& 0x1fff = 0 then 4 else 8) A X P := by
  rw [bpf_run_succ f dhcp_filter 3 A X P ⟨0x45, 4, 0, 0x1fff⟩ (by decide), step_jset_k]
  split_ifs <;> rfl

theorem dhcp_at4 (f A X : Nat) (P : Frame) :
    bpf_run (f + 1) dhcp_filter 4 A X P =
      (match ld_b P 14 with
       | some v => bpf_run f dhcp_filter 5 A (4 * (v &&& 0x0f)) P
       | none => some 0) := by
  rw [bpf_run_succ f dhcp_filter 4 A X P ⟨0xb1, 0, 0, 14⟩ (by decide), step_ldx_msh]
  cases ld_b P 14 <;> rfl

theorem dhcp_at5 (f A X : Nat) (P : Frame) :
    bpf_run (f + 1) dhcp_filter 5 A X P =
      (match ld_h P ((X + 16) % 2 ^ 32) with
       | some a => bpf_run f dhcp_filter 6 a X P
       | none => some 0) := by
  rw [bpf_run_succ f dhcp_filter 5 A X P ⟨0x48, 0, 0, 16⟩ (by decide), step_ldh_ind]
  cases ld_h P ((X + 16) % 2 ^ 32) <;> rfl

theorem dhcp_at6 (f A X : Nat) (P : Frame) :
    bpf_run (f + 1) dhcp_filter 6 A X P =
      bpf_run f dhcp_filter (if A = 68 then 7 else 8) A X P := by
  rw [bpf_run_succ f dhcp_filter 6 A X P ⟨0x15, 0, 1, 68⟩ (by decide), step_jeq_k]
  split_ifs <;> rfl

theorem dhcp_at7 (f A X : Nat) (P : Frame) :
    bpf_run (f + 1) dhcp_filter 7 A X P = some 0xffff := by
  rw [bpf_run_succ f dhcp_filter 7 A X P ⟨0x06, 0, 0, 0xffff⟩ (by decide), step_ret_k]

theorem dhcp_at8 (f A X : Nat) (P : Frame) :
    bpf_run (f + 1) dhcp_filter 8 A X P = some 0 := by
  rw [bpf_run_succ f dhcp_filter 8 A X P ⟨0x06, 0, 0, 0⟩ (by decide), step_ret_k]

theorem msh_offset (b : Nat) : (4 * (b &&& 0x0f) + 16) % 2 ^ 32 = 16 + 4 * (b &&& 0x0f) := by
  have h : b &&& 0x0f ≤ 0x0f := Nat.and_le_right
  omega

theorem dhcp_tail (o : Option Nat) (X : Nat) (P : Frame) :
    (match o with
     | some a => bpf_run 3 dhcp_filter 6 a X P
     | none => some 0) = some (if o = some 68 then 0xffff else 0) := by
  cases o with
  | none => simp
  | some d =>
    simp only [dhcp_at6]
    by_cases hd : d = 68
    · simp [hd, dhcp_at7]
    · simp [hd, dhcp_at8]

/-- The DHCP filter on an arbitrary frame: it returns, and what it returns. -/
theorem run_dhcp (P : Frame) :
    run_filter dhcp_filter P = some (if dhcp_client_match P then 0xffff else 0) := by
  have hlen : dhcp_filter.length = 9 := by decide
  rw [run_filter, hlen, dhcp_at0]
  unfold dhcp_client_match
  cases h23 : ld_b P 23 with
  | none => simp
  | some a =>
    simp only [dhcp_at1]
    by_cases ha : a = 17
    · subst ha
      simp only [if_true, dhcp_at2]
      cases h20 : ld_h P 20 with
      | none => simp
      | some w =>
        simp only [dhcp_at3]
        by_cases hw : w &&& 0x1fff = 0
        · simp only [hw, if_true, dhcp_at4]
          cases h14 : ld_b P 14 with
          | none => simp
          | some b =>
            simp only [dhcp_at5, msh_offset]
            rw [dhcp_tail]
            simp [hw]
        · simp [hw, dhcp_at8]
    · simp [ha, dhcp_at8]


/-- The program handed to `setsockopt` is `filter_code`, whatever the descriptor and the outcome
of the call. -/
theorem attachDhcpFilter_filter (h : HeaderLayout) (setsockopt : Int → sock_fprog → Int)
    (fd : Int) : (android_net_utils_attachDhcpFilter h setsockopt fd).prog.filter =
      filter_code h := by
  simp only [android_net_utils_attachDhcpFilter]
  split_ifs <;> rfl

theorem dhcp_client_match_iff (P : Frame) :
    dhcp_client_match P = true ↔
      ld_b P 23 = some 17 ∧ (∃ w, ld_h P 20 = some w ∧ w &&& 0x1fff = 0) ∧
      ∃ b, ld_b P 14 = some b ∧ ld_h P (16 + 4 * (b &&& 0x0f)) = some 68 := by
  unfold dhcp_client_match
  cases ld_h P 20 <;> cases ld_b P 14 <;> simp [and_assoc]

/-- C1: on every frame the nine-instruction filter terminates; it returns `0xffff` when the byte at
offset 23 is 17, the half word at offset 20 has its low 13 bits clear and the half word at offset
`16 + 4 * (byte at offset 14 AND 0x0f)` is 68, and it returns 0 in every other case. -/
theorem dhcp_filter_semantics (setsockopt : Int → sock_fprog → Int) (fd : Int) (P : Frame) :
    run_filter (android_net_utils_attachDhcpFilter linuxLayout setsockopt fd).prog.filter P =
      some (if dhcp_client_match P then 0xffff else 0) := by
  rw [attachDhcpFilter_filter]
  exact run_dhcp P

/-- C2, as stated, fails: the filter accepts a frame whose EtherType is `0x86dd`, which is not
IPv4 DHCP-client traffic. -/
theorem dhcp_filter_accepts_non_ipv4 :
    run_filter dhcp_filter ipv6_frame = some 0xffff ∧
    ld_h ipv6_frame 12 = some 0x86dd ∧
    is_ipv4_dhcp_client ipv6_frame = false := by
  decide

/-- Overwriting bytes 12 and 13 of a frame leaves every other byte as it was. -/
theorem getElem?_set_ethertype (P : Frame) (e0 e1 : Fin 256) (k : Nat) (h12 : k ≠ 12)
    (h13 : k ≠ 13) : ((P.set 12 e0).set 13 e1)[k]? = P[k]? := by
  rw [List.getElem?_set_ne (Ne.symm h13), List.getElem?_set_ne (Ne.symm h12)]

theorem ld_b_set_ethertype (P : Frame) (e0 e1 : Fin 256) (k : Nat) (h : 14 ≤ k) :
    ld_b ((P.set 12 e0).set 13 e1) k = ld_b P k := by
  simp only [ld_b, getElem?_set_ethertype P e0 e1 k (by omega) (by omega)]

theorem ld_h_set_ethertype (P : Frame) (e0 e1 : Fin 256) (k : Nat) (h : 14 ≤ k) :
    ld_h ((P.set 12 e0).set 13 e1) k = ld_h P k := by
  simp only [ld_h, getElem?_set_ethertype P e0 e1 k (by omega) (by omega),
    getElem?_set_ethertype P e0 e1 (k + 1) (by omega) (by omega)]

/-- The three conditions of the filter read no byte below offset 14. -/
theorem dhcp_client_match_set_ethertype (P : Frame) (e0 e1 : Fin 256) :
    dhcp_client_match ((P.set 12 e0).set 13 e1) = dhcp_client_match P := by
  simp only [dhcp_client_match, ld_b_set_ethertype P e0 e1 23 (by omega),
    ld_h_set_ethertype P e0 e1 20 (by omega), ld_b_set_ethertype P e0 e1 14 (by omega)]
  cases ld_b P 14 with
  | none => rfl
  | some b => simp only [ld_h_set_ethertype P e0 e1 (16 + 4 * (b &&& 0x0f)) (by omega)]

/-- C2, amended: every frame the filter accepts (returns a non-zero length for) has IP protocol
byte 17 (UDP) at offset 23 and the value 68 in the UDP destination port position, the half word at
offset `16 + 4 * (byte at offset 14 AND 0x0f)`; and the filter does not examine the EtherType:
for every frame its result stays the same whatever the bytes at offsets 12 and 13 are replaced
with. -/
theorem dhcp_filter_accepts_only_udp_68 (P : Frame) :
    (∀ n, run_filter dhcp_filter P = some n → n ≠ 0 →
      ld_b P 23 = some 17 ∧
      ∃ b, ld_b P 14 = some b ∧ ld_h P (16 + 4 * (b &&& 0x0f)) = some 68) ∧
    (∀ e0 e1 : Fin 256,
      run_filter dhcp_filter ((P.set 12 e0).set 13 e1) = run_filter dhcp_filter P) := by
  constructor
  · intro n hrun hn
    rw [run_dhcp] at hrun
    by_cases hm : dhcp_client_match P = true
    · obtain ⟨h1, _, h3⟩ := (dhcp_client_match_iff P).mp hm
      exact ⟨h1, h3⟩
    · simp [hm] at hrun
      exact absurd hrun.symm hn
  · intro e0 e1
    rw [run_dhcp, run_dhcp, dhcp_client_match_set_ethertype]

theorem dhcp_filter_accepts_only_udp_68_witness :
    run_filter dhcp_filter dhcp_offer_frame = some 0xffff ∧
    (ld_b dhcp_offer_frame 23 = some 17 ∧
      ∃ b, ld_b dhcp_offer_frame 14 = some b ∧
        ld_h dhcp_offer_frame (16 + 4 * (b &&& 0x0f)) = some 68) ∧
    run_filter dhcp_filter ((dhcp_offer_frame.set 12 0x86).set 13 0xdd) =
      run_filter dhcp_filter dhcp_offer_frame :=
  ⟨by decide,
    (dhcp_filter_accepts_only_udp_68 dhcp_offer_frame).1 0xffff (by decide) (by decide),
    (dhcp_filter_accepts_only_udp_68 dhcp_offer_frame).2 0x86 0xdd⟩

/-! ## Boolean bridges -/

/-- C4: each of `stopDhcp`, `releaseDhcpLease`, `stopDhcpv6`, `bindProcessToNetwork`,
`bindProcessToNetworkForHostResolution`, `protectFromVpn` and `queryUserAccess`, and `startDhcp`
and `startDhcpRenew` when the interface name converted to a string, returns true if and only if
the integer code the forwarded native function returned is 0. -/
theorem native_code_zero_iff_true (dhcp_start dhcp_start_renew : String → Int)
    (dhcp_stop dhcp_release_lease dhcpv6_stop : Option String → Int)
    (setNetworkForProcess setNetworkForResolv protectFromVpn : Int → Int)
    (queryUserAccess : Int → Int → Int)
    (name : String) (nameStr : Option String) (netId socket uid : Int) :
    (android_net_utils_stopDhcp dhcp_stop nameStr = true ↔ dhcp_stop nameStr = 0) ∧
    (android_net_utils_releaseDhcpLease dhcp_release_lease nameStr = true ↔
      dhcp_release_lease nameStr = 0) ∧
    (android_net_utils_stopDhcpv6 dhcpv6_stop nameStr = true ↔ dhcpv6_stop nameStr = 0) ∧
    (android_net_utils_bindProcessToNetwork setNetworkForProcess netId = true ↔
      setNetworkForProcess netId = 0) ∧
    (android_net_utils_bindProcessToNetworkForHostResolution setNetworkForResolv netId = true ↔
      setNetworkForResolv netId = 0) ∧
    (android_net_utils_protectFromVpn protectFromVpn socket = true ↔
      protectFromVpn socket = 0) ∧
    (android_net_utils_queryUserAccess queryUserAccess uid netId = true ↔
      queryUserAccess uid netId = 0) ∧
    (android_net_utils_startDhcp dhcp_start (some name) = true ↔ dhcp_start name = 0) ∧
    (android_net_utils_startDhcpRenew dhcp_start_renew (some name) = true ↔
      dhcp_start_renew name = 0) := by
  simp [android_net_utils_stopDhcp, android_net_utils_releaseDhcpLease,
    android_net_utils_stopDhcpv6, android_net_utils_bindProcessToNetwork,
    android_net_utils_bindProcessToNetworkForHostResolution, android_net_utils_protectFromVpn,
    android_net_utils_queryUserAccess, android_net_utils_startDhcp,
    android_net_utils_startDhcpRenew, lnot]


/-! ## Populating the `DhcpResults` object -/

theorem if_ok_zero (l : List Call) (f : Jni → Jni) : if_ok ⟨0, l⟩ f = f ⟨0, l⟩ := by
  simp [if_ok]

theorem if_ok_one (l : List Call) (f : Jni → Jni) : if_ok ⟨1, l⟩ f = ⟨1, l⟩ := by
  simp [if_ok]

theorem if_ok_nonzero (n : Int) (h : n ≠ 0) (l : List Call) (f : Jni → Jni) :
    if_ok ⟨n, l⟩ f = ⟨n, l⟩ := by
  simp [if_ok, h]

theorem CallBooleanMethod_true (obj : DhcpResults) (r : Int) (l : List Call) (c : Call)
    (h : obj l c = true) : CallBooleanMethod obj ⟨r, l⟩ c = ⟨1, l ++ [c]⟩ := by
  simp [CallBooleanMethod, h]

theorem CallBooleanMethod_false (obj : DhcpResults) (r : Int) (l : List Call) (c : Call)
    (h : obj l c = false) : CallBooleanMethod obj ⟨r, l⟩ c = ⟨0, l ++ [c]⟩ := by
  simp [CallBooleanMethod, h]

theorem CallVoidMethod_mk (r : Int) (l : List Call) (c : Call) :
    CallVoidMethod ⟨r, l⟩ c = ⟨r, l ++ [c]⟩ := rfl

/-- Normal form of `android_net_utils_getDhcpResults`: nothing is invoked when the native call
fails, and otherwise the planned invocations are made up to the first failing one. -/
theorem getDhcpResults_eq (native : String → DhcpGetResults) (obj : DhcpResults)
    (name : String) :
    android_net_utils_getDhcpResults native obj (some name) =
      if (native name).result = 0 then
        invoke_until_failure obj [] (getDhcpResults_plan (native name))
      else ⟨false, []⟩ := by
  by_cases h0 : (native name).result = 0
  · simp only [android_net_utils_getDhcpResults, getDhcpResults_plan, invoke_until_failure,
      h0, if_true, if_ok_zero, CallVoidMethod_mk, List.nil_append, List.cons_append,
      Call.returnsBoolean, Bool.true_and, Bool.false_and, Bool.false_eq_true, if_false]
    generalize Call.setIpAddress (native name).ipaddr
      (jint_of_uint32 (native name).prefixLength) = c1
    generalize Call.setGateway (native name).gateway = c2
    generalize Call.addDns (native name).dns1 = c3
    generalize Call.setDomains (native name).domains = c4
    generalize Call.addDns (native name).dns2 = c5
    generalize Call.addDns (native name).dns3 = c6
    generalize Call.addDns (native name).dns4 = c7
    generalize Call.setServerAddress (native name).server = c8
    cases h1 : obj [Call.clear] c1
    · simp only [CallBooleanMethod_false _ _ _ _ h1, if_ok_zero, CallVoidMethod_mk,
        List.cons_append, List.nil_append]
      cases h2 : obj [Call.clear, c1] c2
      · simp only [CallBooleanMethod_false _ _ _ _ h2, if_ok_zero, CallVoidMethod_mk,
          List.cons_append, List.nil_append]
        cases h3 : obj [Call.clear, c1, c2] c3
        · simp only [CallBooleanMethod_false _ _ _ _ h3, if_ok_zero, CallVoidMethod_mk,
            List.cons_append, List.nil_append]
          cases h4 : obj [Call.clear, c1, c2, c3, c4] c5
          · simp only [CallBooleanMethod_false _ _ _ _ h4, if_ok_zero, CallVoidMethod_mk,
              List.cons_append, List.nil_append]
            cases h5 : obj [Call.clear, c1, c2, c3, c4, c5] c6
            · simp only [CallBooleanMethod_false _ _ _ _ h5, if_ok_zero, CallVoidMethod_mk,
                List.cons_append, List.nil_append]
              cases h6 : obj [Call.clear, c1, c2, c3, c4, c5, c6] c7
              · simp only [CallBooleanMethod_false _ _ _ _ h6, if_ok_zero, CallVoidMethod_mk,
                  List.cons_append, List.nil_append]
                cases h7 : obj [Call.clear, c1, c2, c3, c4, c5, c6, c7] c8
                · simp [CallBooleanMethod_false _ _ _ _ h7, if_ok_zero, CallVoidMethod_mk,
                    return_ok]
                · simp [CallBooleanMethod_true _ _ _ _ h7, if_ok_one, return_ok]
              · simp [CallBooleanMethod_true _ _ _ _ h6, if_ok_one, return_ok]
            · simp [CallBooleanMethod_true _ _ _ _ h5, if_ok_one, return_ok]
          · simp [CallBooleanMethod_true _ _ _ _ h4, if_ok_one, return_ok]
        · simp [CallBooleanMethod_true _ _ _ _ h3, if_ok_one, return_ok]
      · simp [CallBooleanMethod_true _ _ _ _ h2, if_ok_one, return_ok]
    · simp [CallBooleanMethod_true _ _ _ _ h1, if_ok_one, return_ok]
  · simp [android_net_utils_getDhcpResults, h0, if_ok_nonzero, return_ok]

theorem invoke_until_failure_calls (obj : DhcpResults) (plan done : List Call) :
    ∃ l t, (invoke_until_failure obj done plan).calls = done ++ l ∧ plan = l ++ t := by
  induction plan generalizing done with
  | nil => exact ⟨[], [], by simp [invoke_until_failure], rfl⟩
  | cons d rest ih =>
    by_cases hf : (d.returnsBoolean && obj done d) = true
    · exact ⟨[d], rest, by simp [invoke_until_failure, hf], rfl⟩
    · obtain ⟨l, t, hl, ht⟩ := ih (done ++ [d])
      refine ⟨d :: l, t, ?_, by simp [ht]⟩
      simp only [invoke_until_failure, hf, Bool.false_eq_true, if_false]
      simpa using hl

theorem invoke_until_failure_stops (obj : DhcpResults) (plan done pre post : List Call)
    (c : Call) (hcalls : (invoke_until_failure obj done plan).calls = done ++ pre ++ c :: post)
    (hb : c.returnsBoolean = true) (hfail : obj (done ++ pre) c = true) : post = [] := by
  induction plan generalizing done pre with
  | nil =>
    simp [invoke_until_failure, List.append_assoc] at hcalls
  | cons d rest ih =>
    by_cases hf : (d.returnsBoolean && obj done d) = true
    · simp only [invoke_until_failure, hf, if_true, List.append_assoc,
        List.append_cancel_left_eq] at hcalls
      cases pre with
      | nil => exact (by simpa using hcalls.symm : c = d ∧ post = []).2
      | cons p ps => simp at hcalls
    · obtain ⟨l, t, hl, _⟩ := invoke_until_failure_calls obj rest (done ++ [d])
      simp only [invoke_until_failure, hf, Bool.false_eq_true, if_false] at hcalls
      have hsplit : d :: l = pre ++ c :: post := by
        have := hl.symm.trans hcalls
        simpa [List.append_assoc] using this
      cases pre with
      | nil =>
        simp only [List.nil_append, List.cons.injEq] at hsplit
        rw [← hsplit.1, List.append_nil] at hfail
        rw [← hsplit.1] at hb
        simp [hb, hfail] at hf
      | cons p ps =>
        simp only [List.cons_append, List.cons.injEq] at hsplit
        apply ih (done ++ [d]) ps
        · rw [hcalls]; simp [hsplit.1]
        · rw [← hsplit.1] at hfail; simpa using hfail

theorem invoke_until_failure_all_ok (obj : DhcpResults) (plan done : List Call)
    (hok : ∀ pre c post, (invoke_until_failure obj done plan).calls = done ++ pre ++ c :: post →
      c.returnsBoolean = true → obj (done ++ pre) c = false) :
    invoke_until_failure obj done plan = ⟨true, done ++ plan⟩ := by
  induction plan generalizing done with
  | nil => simp [invoke_until_failure]
  | cons d rest ih =>
    by_cases hf : (d.returnsBoolean && obj done d) = true
    · have h1 := hok [] d [] (by simp [invoke_until_failure, hf])
      simp only [Bool.and_eq_true] at hf
      have h2 := h1 hf.1
      simp [hf.2] at h2
    · simp only [invoke_until_failure, hf, Bool.false_eq_true, if_false] at hok ⊢
      rw [ih (done ++ [d])]
      · simp
      · intro pre c post h hb
        have := hok (d :: pre) c post (by simpa using h) hb
        simpa using this

/-- Normal form of `android_net_utils_runDhcpv6Common`: the result of `setIpV6Address` is
overwritten by that of the first `addDnsV6`. -/
theorem runDhcpv6Common_eq (req : String → Dhcpv6Results)
    (renew : String → Nat → Dhcpv6Results) (pid : Nat) (obj : DhcpResults) (name : String)
    (rn : Bool) (r : Dhcpv6Results) (hr : r = if rn then renew name pid else req name) :
    android_net_utils_runDhcpv6Common req renew pid obj (some name) rn =
      if r.result = 0 then
        if obj [.clearV6, .clear, .setIpV6Address r.ipaddr 64] (.addDnsV6 r.dns1) then
          ⟨false, [.clearV6, .clear, .setIpV6Address r.ipaddr 64, .addDnsV6 r.dns1]⟩
        else
          ⟨!obj [.clearV6, .clear, .setIpV6Address r.ipaddr 64, .addDnsV6 r.dns1]
              (.addDnsV6 r.dns2),
            [.clearV6, .clear, .setIpV6Address r.ipaddr 64, .addDnsV6 r.dns1,
              .addDnsV6 r.dns2]⟩
      else ⟨false, []⟩ := by
  simp only [android_net_utils_runDhcpv6Common, ← hr]
  by_cases h0 : r.result = 0
  · simp only [h0, if_true, if_ok_zero, CallVoidMethod_mk, List.nil_append, List.cons_append]
    cases h1 : obj [.clearV6, .clear, .setIpV6Address r.ipaddr 64] (.addDnsV6 r.dns1)
    · cases h2 : obj [.clearV6, .clear, .setIpV6Address r.ipaddr 64, .addDnsV6 r.dns1]
          (.addDnsV6 r.dns2) <;>
        simp [CallBooleanMethod, if_ok, return_ok, h1, h2]
    · simp [CallBooleanMethod, if_ok, return_ok, h1]
  · simp [h0, if_ok_nonzero, return_ok]

/-- C5: in `getDhcpResults`, `runDhcpv6` and `runDhcpv6Renew` nothing is invoked on the result
object when the native DHCP call returns a non-zero code; otherwise the invocations begin with
`clear` (`clearV6` then `clear` for the DHCPv6 operations) and everything after is a setter or an
add, so the clear precedes every one of them. For a null interface name the native call is not
made and nothing is invoked. -/
theorem result_object_cleared_first (native : String → DhcpGetResults)
    (req : String → Dhcpv6Results)
    (renew : String → Nat → Dhcpv6Results) (pid : Nat) (obj : DhcpResults) (name : String) :
    (((native name).result ≠ 0 →
        (android_net_utils_getDhcpResults native obj (some name)).calls = []) ∧
      ((native name).result = 0 →
        ∃ rest, (android_net_utils_getDhcpResults native obj (some name)).calls = .clear :: rest
          ∧ ∀ c ∈ rest, c.isClear = false)) ∧
    (((req name).result ≠ 0 →
        (android_net_utils_runDhcpv6 req renew pid obj (some name)).calls = []) ∧
      ((req name).result = 0 →
        ∃ rest, (android_net_utils_runDhcpv6 req renew pid obj (some name)).calls
            = .clearV6 :: .clear :: rest
          ∧ ∀ c ∈ rest, c.isClear = false)) ∧
    (((renew name pid).result ≠ 0 →
        (android_net_utils_runDhcpv6Renew req renew pid obj (some name)).calls = []) ∧
      ((renew name pid).result = 0 →
        ∃ rest, (android_net_utils_runDhcpv6Renew req renew pid obj (some name)).calls
            = .clearV6 :: .clear :: rest
          ∧ ∀ c ∈ rest, c.isClear = false)) ∧
    ((android_net_utils_getDhcpResults native obj none).calls = [] ∧
      (android_net_utils_runDhcpv6 req renew pid obj none).calls = [] ∧
      (android_net_utils_runDhcpv6Renew req renew pid obj none).calls = []) := by
  refine ⟨⟨?_, ?_⟩, ⟨?_, ?_⟩, ⟨?_, ?_⟩, ⟨rfl, rfl, rfl⟩⟩
  · intro h; simp [getDhcpResults_eq, h]
  · intro h
    obtain ⟨l, t, hl, ht⟩ := invoke_until_failure_calls obj
      (getDhcpResults_plan (native name)).tail [.clear]
    refine ⟨l, ?_, ?_⟩
    · rw [getDhcpResults_eq, if_pos h]
      simpa [getDhcpResults_plan, invoke_until_failure, Call.returnsBoolean] using hl
    · intro c hc
      have hmem : c ∈ (getDhcpResults_plan (native name)).tail := by
        rw [ht]; exact List.mem_append_left _ hc
      simp [getDhcpResults_plan] at hmem
      rcases hmem with h | h | h | h | h | h | h | h | h | h <;> rw [h] <;> rfl
  · intro h
    rw [android_net_utils_runDhcpv6, runDhcpv6Common_eq req renew pid obj name false _ rfl]
    simp [h]
  · intro h
    rw [android_net_utils_runDhcpv6, runDhcpv6Common_eq req renew pid obj name false _ rfl]
    simp only [Bool.false_eq_true, if_false, h, if_true]
    split_ifs <;> simp [Call.isClear]
  · intro h
    rw [android_net_utils_runDhcpv6Renew, runDhcpv6Common_eq req renew pid obj name true _ rfl]
    simp [h]
  · intro h
    rw [android_net_utils_runDhcpv6Renew, runDhcpv6Common_eq req renew pid obj name true _ rfl]
    simp only [if_true, h]
    split_ifs <;> simp [Call.isClear]

theorem result_object_cleared_first_witness :
    sample_dhcp.result = 0 ∧
    ∃ rest,
      (android_net_utils_getDhcpResults (fun _ => sample_dhcp) accept_all (some "wlan0")).calls
        = .clear :: rest ∧ ∀ c ∈ rest, c.isClear = false :=
  ⟨rfl, (result_object_cleared_first (fun _ => sample_dhcp) (fun _ => sample_dhcpv6)
    (fun _ _ => sample_dhcpv6) 0 accept_all "wlan0").1.2 rfl⟩

/-- C6: the code at the failing input. The native request returns 0 with an empty address
string and `setIpV6Address` reports failure (returns `true`), yet `runDhcpv6` and
`runDhcpv6Renew` go on to both `addDnsV6` calls and return true: the result of `setIpV6Address`
is overwritten before it is looked at. -/
theorem runDhcpv6_ignores_setIpV6Address_failure :
    dhcpv6_without_address.result = 0 ∧
    reject_empty_address [.clearV6, .clear] (.setIpV6Address "" 64) = true ∧
    android_net_utils_runDhcpv6 (fun _ => dhcpv6_without_address)
        (fun _ _ => dhcpv6_without_address) 0 reject_empty_address (some "wlan0") =
      ⟨true, [.clearV6, .clear, .setIpV6Address "" 64, .addDnsV6 "2001:db8::53",
        .addDnsV6 "2001:db8::54"]⟩ ∧
    android_net_utils_runDhcpv6Renew (fun _ => dhcpv6_without_address)
        (fun _ _ => dhcpv6_without_address) 0 reject_empty_address (some "wlan0") =
      ⟨true, [.clearV6, .clear, .setIpV6Address "" 64, .addDnsV6 "2001:db8::53",
        .addDnsV6 "2001:db8::54"]⟩ := by
  refine ⟨rfl, rfl, rfl, rfl⟩

/-- C7: for a non-null interface name `getDhcpResults` returns true if and only if
`dhcp_get_results` returns 0 and each of the seven boolean setters (`setIpAddress`, `setGateway`,
`addDns` for dns1 to dns4, `setServerAddress`), at the point where it is invoked, returns false;
and nothing is invoked when the native call fails, nor after a boolean setter that returned
true. -/
theorem getDhcpResults_true_iff (native : String → DhcpGetResults) (obj : DhcpResults)
    (name : String) :
    ((android_net_utils_getDhcpResults native obj (some name)).ret = true ↔
      (native name).result = 0 ∧
      obj [.clear]
        (.setIpAddress (native name).ipaddr (jint_of_uint32 (native name).prefixLength))
        = false ∧
      obj [.clear, .setIpAddress (native name).ipaddr (jint_of_uint32 (native name).prefixLength)]
        (.setGateway (native name).gateway) = false ∧
      obj [.clear, .setIpAddress (native name).ipaddr (jint_of_uint32 (native name).prefixLength),
          .setGateway (native name).gateway]
        (.addDns (native name).dns1) = false ∧
      obj [.clear, .setIpAddress (native name).ipaddr (jint_of_uint32 (native name).prefixLength),
          .setGateway (native name).gateway, .addDns (native name).dns1,
          .setDomains (native name).domains]
        (.addDns (native name).dns2) = false ∧
      obj [.clear, .setIpAddress (native name).ipaddr (jint_of_uint32 (native name).prefixLength),
          .setGateway (native name).gateway, .addDns (native name).dns1,
          .setDomains (native name).domains, .addDns (native name).dns2]
        (.addDns (native name).dns3) = false ∧
      obj [.clear, .setIpAddress (native name).ipaddr (jint_of_uint32 (native name).prefixLength),
          .setGateway (native name).gateway, .addDns (native name).dns1,
          .setDomains (native name).domains, .addDns (native name).dns2,
          .addDns (native name).dns3]
        (.addDns (native name).dns4) = false ∧
      obj [.clear, .setIpAddress (native name).ipaddr (jint_of_uint32 (native name).prefixLength),
          .setGateway (native name).gateway, .addDns (native name).dns1,
          .setDomains (native name).domains, .addDns (native name).dns2,
          .addDns (native name).dns3, .addDns (native name).dns4]
        (.setServerAddress (native name).server) = false) ∧
    ((native name).result ≠ 0 →
      (android_net_utils_getDhcpResults native obj (some name)).calls = []) ∧
    (∀ pre c post,
      (android_net_utils_getDhcpResults native obj (some name)).calls = pre ++ c :: post →
      c.returnsBoolean = true → obj pre c = true → post = []) := by
  refine ⟨?_, ?_, ?_⟩
  · rw [getDhcpResults_eq]
    generalize native name = r
    by_cases h0 : r.result = 0
    · simp only [h0, if_true, true_and, getDhcpResults_plan, invoke_until_failure,
        Call.returnsBoolean, Bool.true_and, Bool.false_and, Bool.false_eq_true, if_false,
        List.nil_append, List.cons_append]
      split_ifs <;> simp_all
    · simp [h0]
  · intro h; simp [getDhcpResults_eq, h]
  · intro pre c post hcalls hb hfail
    rw [getDhcpResults_eq] at hcalls
    by_cases h0 : (native name).result = 0
    · rw [if_pos h0] at hcalls
      exact invoke_until_failure_stops obj _ [] pre post c (by simpa using hcalls) hb
        (by simpa using hfail)
    · simp [h0] at hcalls

/-- C8, as stated, fails: `dhcp_get_results` returns 0 and produces the lease `0xffffffff`, every
boolean setter reports success, and the result object is invoked with `setLeaseDuration(-1)`: the
argument is not the value 4294967295 the native call produced, and no invocation carries that
value. -/
theorem getDhcpResults_lease_argument_signed :
    infinite_lease_dhcp.result = 0 ∧
    infinite_lease_dhcp.lease.val = 4294967295 ∧
    (android_net_utils_getDhcpResults (fun _ => infinite_lease_dhcp) accept_all
        (some "wlan0")) =
      ⟨true, [.clear, .setIpAddress "192.168.1.10" 24, .setGateway "192.168.1.1",
        .addDns "8.8.8.8", .setDomains "lan", .addDns "8.8.4.4", .addDns "", .addDns "",
        .setServerAddress "192.168.1.1", .setLeaseDuration (-1), .setVendorInfo ""]⟩ ∧
    Call.setLeaseDuration 4294967295 ∉
      (android_net_utils_getDhcpResults (fun _ => infinite_lease_dhcp) accept_all
        (some "wlan0")).calls := by
  refine ⟨rfl, rfl, ?_, ?_⟩ <;> decide

/-- C8, amended: when `dhcp_get_results` returns 0 and every boolean setter that is invoked
reports success, the invocations on the result object are exactly `clear`, `setIpAddress(ipaddr,
prefixLength)`, `setGateway(gateway)`, `addDns(dns1)`, `setDomains(domains)`, `addDns(dns2)`,
`addDns(dns3)`, `addDns(dns4)`, `setServerAddress(server)`, `setLeaseDuration(lease)`,
`setVendorInfo(vendorInfo)`, in this order. Each string argument is the value the native call
produced; `prefixLength` and `lease` are the `uint32_t` values the native call produced read as
signed 32-bit integers, which is the value itself below `2 ^ 31` and the value minus `2 ^ 32`
otherwise. -/
theorem getDhcpResults_success_calls (native : String → DhcpGetResults) (obj : DhcpResults)
    (name : String)
    (h0 : (native name).result = 0)
    (hok : ∀ pre c post,
      (android_net_utils_getDhcpResults native obj (some name)).calls = pre ++ c :: post →
      c.returnsBoolean = true → obj pre c = false) :
    (android_net_utils_getDhcpResults native obj (some name)).calls =
      [.clear,
       .setIpAddress (native name).ipaddr
         (if (native name).prefixLength.val < 2 ^ 31 then ((native name).prefixLength.val : Int)
          else ((native name).prefixLength.val : Int) - 2 ^ 32),
       .setGateway (native name).gateway,
       .addDns (native name).dns1,
       .setDomains (native name).domains,
       .addDns (native name).dns2,
       .addDns (native name).dns3,
       .addDns (native name).dns4,
       .setServerAddress (native name).server,
       .setLeaseDuration
         (if (native name).lease.val < 2 ^ 31 then ((native name).lease.val : Int)
          else ((native name).lease.val : Int) - 2 ^ 32),
       .setVendorInfo (native name).vendorInfo] := by
  rw [getDhcpResults_eq, if_pos h0] at hok ⊢
  rw [invoke_until_failure_all_ok obj _ []]
  · rfl
  · intro pre c post h hb
    simpa using hok pre c post (by simpa using h) hb

theorem getDhcpResults_success_calls_witness :
    sample_dhcp.result = 0 ∧
    (android_net_utils_getDhcpResults (fun _ => sample_dhcp) accept_all (some "wlan0")).calls =
      [.clear, .setIpAddress "192.168.1.10" 24, .setGateway "192.168.1.1", .addDns "8.8.8.8",
       .setDomains "lan", .addDns "8.8.4.4", .addDns "", .addDns "",
       .setServerAddress "192.168.1.1", .setLeaseDuration 86400, .setVendorInfo ""] :=
  ⟨rfl, getDhcpResults_success_calls (fun _ => sample_dhcp) accept_all "wlan0" rfl
    (fun _ _ _ _ _ => rfl)⟩

/-- C9: in `runDhcpv6` and `runDhcpv6Renew`, when the native request returns 0 the invocations
of `setIpV6Address` are exactly one, with the address string the native request produced and
prefix length 64; when it returns non-zero there is none. -/
theorem runDhcpv6_setIpV6Address_once (req : String → Dhcpv6Results)
    (renew : String → Nat → Dhcpv6Results) (pid : Nat)
    (obj : DhcpResults) (name : String) :
    ((req name).result = 0 →
      (android_net_utils_runDhcpv6 req renew pid obj (some name)).calls.filter
        Call.isSetIpV6Address = [.setIpV6Address (req name).ipaddr 64]) ∧
    ((req name).result ≠ 0 →
      (android_net_utils_runDhcpv6 req renew pid obj (some name)).calls.filter
        Call.isSetIpV6Address = []) ∧
    ((renew name pid).result = 0 →
      (android_net_utils_runDhcpv6Renew req renew pid obj (some name)).calls.filter
        Call.isSetIpV6Address = [.setIpV6Address (renew name pid).ipaddr 64]) ∧
    ((renew name pid).result ≠ 0 →
      (android_net_utils_runDhcpv6Renew req renew pid obj (some name)).calls.filter
        Call.isSetIpV6Address = []) := by
  refine ⟨?_, ?_, ?_, ?_⟩
  · intro h
    rw [android_net_utils_runDhcpv6, runDhcpv6Common_eq req renew pid obj name false _ rfl]
    simp only [Bool.false_eq_true, if_false, h, if_true]
    split_ifs <;> simp [Call.isSetIpV6Address, List.filter]
  · intro h
    rw [android_net_utils_runDhcpv6, runDhcpv6Common_eq req renew pid obj name false _ rfl]
    simp [h]
  · intro h
    rw [android_net_utils_runDhcpv6Renew, runDhcpv6Common_eq req renew pid obj name true _ rfl]
    simp only [if_true, h]
    split_ifs <;> simp [Call.isSetIpV6Address, List.filter]
  · intro h
    rw [android_net_utils_runDhcpv6Renew, runDhcpv6Common_eq req renew pid obj name true _ rfl]
    simp [h]

theorem getDhcpResults_true_iff_witness :
    (android_net_utils_getDhcpResults (fun _ => sample_dhcp) accept_all (some "wlan0")).ret
      = true ∧
    (android_net_utils_getDhcpResults (fun _ => failed_dhcp) accept_all (some "wlan0")).calls
      = [] :=
  ⟨(getDhcpResults_true_iff (fun _ => sample_dhcp) accept_all "wlan0").1.mpr
      ⟨rfl, rfl, rfl, rfl, rfl, rfl, rfl, rfl⟩,
    (getDhcpResults_true_iff (fun _ => failed_dhcp) accept_all "wlan0").2.1 (by decide)⟩

theorem runDhcpv6_setIpV6Address_once_witness :
    sample_dhcpv6.result = 0 ∧
    (android_net_utils_runDhcpv6 (fun _ => sample_dhcpv6) (fun _ _ => sample_dhcpv6) 0
        accept_all (some "wlan0")).calls.filter Call.isSetIpV6Address =
      [.setIpV6Address "2001:db8::10" 64] :=
  ⟨rfl, (runDhcpv6_setIpV6Address_once (fun _ => sample_dhcpv6) (fun _ _ => sample_dhcpv6) 0
    accept_all "wlan0").1 rfl⟩

/-! ## The power hint bridge -/

/-- C10: in every state and for every argument, `setBoostEnable_native` and
`setBoostPerformance_native` make no HAL call and leave the state as it was when the module handle
is null or the module has no `powerHint` hook, which is the case after a `nativeInit` from the
initial state whose module lookup failed; otherwise each makes exactly one `powerHint` call, with
`POWER_HINT_ACTIVITY`, respectively with `POWER_HINT_TOUCH` and the given `cpu_nr` and
`duration`. -/
theorem boost_hint_dropped_or_dispatched (st : Performance) (enable cpu_nr duration : Int) :
    (st.unavailable = true →
      setBoostEnable_native st enable = ⟨st, []⟩ ∧
      setBoostPerformance_native st cpu_nr duration = ⟨st, []⟩) ∧
    (∀ err, err ≠ 0 → ∀ outcome,
      outcome = Lookup.not_found err ∨ outcome = Lookup.load_failed err →
      ∃ st1, nativeInit outcome Performance.initial = some ⟨st1, []⟩ ∧
        st1.unavailable = true ∧
        setBoostEnable_native st1 enable = ⟨st1, []⟩ ∧
        setBoostPerformance_native st1 cpu_nr duration = ⟨st1, []⟩) ∧
    (st.unavailable = false →
      ∃ m, st.gPowerModule = some m ∧
        setBoostEnable_native st enable =
          ⟨st, [.powerHint m .POWER_HINT_ACTIVITY
            (if enable ≠ 0 then .data_param enable else .null)]⟩ ∧
        setBoostPerformance_native st cpu_nr duration =
          ⟨st, [.powerHint m .POWER_HINT_TOUCH
            (.power_interaction_data cpu_nr duration)]⟩) := by
  refine ⟨?_, ?_, ?_⟩
  · intro h
    cases hm : st.gPowerModule with
    | none => simp [setBoostEnable_native, setBoostPerformance_native, hm]
    | some m =>
      have hp : m.powerHint = false := by simpa [Performance.unavailable, hm] using h
      simp [setBoostEnable_native, setBoostPerformance_native, hm, hp]
  · intro err herr outcome ho
    refine ⟨Performance.initial, ?_, rfl, rfl, rfl⟩
    rcases ho with rfl | rfl <;>
      simp [nativeInit, hw_get_module, Performance.initial, herr]
  · intro h
    cases hm : st.gPowerModule with
    | none => simp [Performance.unavailable, hm] at h
    | some m =>
      have hp : m.powerHint = true := by simpa [Performance.unavailable, hm] using h
      refine ⟨m, rfl, ?_, ?_⟩
      · by_cases he : enable = 0 <;> simp [setBoostEnable_native, hm, hp, he]
      · simp [setBoostPerformance_native, hm, hp]

theorem boost_hint_dropped_or_dispatched_witness :
    (setBoostEnable_native Performance.initial 1 = ⟨Performance.initial, []⟩ ∧
      setBoostPerformance_native Performance.initial 2 300 = ⟨Performance.initial, []⟩) ∧
    ∃ m, (⟨some sample_module⟩ : Performance).gPowerModule = some m ∧
      setBoostEnable_native ⟨some sample_module⟩ 1 =
        ⟨⟨some sample_module⟩, [.powerHint m .POWER_HINT_ACTIVITY
          (if (1 : Int) ≠ 0 then .data_param 1 else .null)]⟩ ∧
      setBoostPerformance_native ⟨some sample_module⟩ 2 300 =
        ⟨⟨some sample_module⟩,
          [.powerHint m .POWER_HINT_TOUCH (.power_interaction_data 2 300)]⟩ :=
  ⟨(boost_hint_dropped_or_dispatched Performance.initial 1 2 300).1 rfl,
    (boost_hint_dropped_or_dispatched ⟨some sample_module⟩ 1 2 300).2.2 rfl⟩


/-! ## The value buffers handed to the native layer -/

/-- A property value fits in `PROPERTY_VALUE_MAX` bytes, terminating NUL included. -/
theorem property_value_length (N : Nat) (hN : 0 < N) (content : List (Fin 256)) :
    (property_value N content).length ≤ N := by
  simp only [property_value, List.length_append, List.length_take, List.length_singleton]
  omega

/-- Storing a property value into an array of `PROPERTY_VALUE_MAX` bytes stays inside it. -/
theorem store_property_value (N : Nat) (hN : 0 < N) (buf : Buffer) (hcap : buf.capacity = N)
    (content : List (Fin 256)) :
    ∃ out, buf.store (property_value N content) = some out ∧ out.capacity = N := by
  have hlen := property_value_length N hN content
  refine ⟨⟨(property_value N content).map some ++
    buf.cells.drop (property_value N content).length⟩, ?_, ?_⟩
  · simp [Buffer.store, hcap, hlen]
  · simp only [Buffer.capacity, List.length_append, List.length_map, List.length_drop] at hcap ⊢
    omega

theorem capacity_uninitialised (N : Nat) : (Buffer.uninitialised N).capacity = N := by
  simp [Buffer.uninitialised, Buffer.capacity]

theorem capacity_zeroed (N : Nat) : (Buffer.zeroed N).capacity = N := by
  simp [Buffer.zeroed, Buffer.capacity]

/-- C11: for every content the native side has, of any length, none of the stores into the
value buffers that `getDhcpResults` (`ipaddr`, `gateway`, `dns1` .. `dns4`, `server`,
`vendorInfo`, `domains`, `mtu`) and the DHCPv6 operations (`ipaddr`, `dns1`, `dns2`) pass to the
native layer runs past the end of its `PROPERTY_VALUE_MAX`-byte array, and every array keeps that
size. -/
theorem value_buffers_never_overrun (PROPERTY_VALUE_MAX : Nat)
    (hpos : 0 < PROPERTY_VALUE_MAX) (c : DhcpContent) (c6 : Dhcpv6Content) :
    (∃ out, dhcp_get_results_stores PROPERTY_VALUE_MAX c
        (getDhcpResults_buffers PROPERTY_VALUE_MAX) = some out ∧
      out.all_capacity PROPERTY_VALUE_MAX = true) ∧
    (∃ out, dhcpv6_do_request_stores PROPERTY_VALUE_MAX c6
        (runDhcpv6Common_buffers PROPERTY_VALUE_MAX) = some out ∧
      out.all_capacity PROPERTY_VALUE_MAX = true) := by
  constructor
  · obtain ⟨o1, h1, k1⟩ := store_property_value _ hpos _ (capacity_uninitialised _) c.ipaddr
    obtain ⟨o2, h2, k2⟩ := store_property_value _ hpos _ (capacity_uninitialised _) c.gateway
    obtain ⟨o3, h3, k3⟩ := store_property_value _ hpos _ (capacity_uninitialised _) c.dns1
    obtain ⟨o4, h4, k4⟩ := store_property_value _ hpos _ (capacity_uninitialised _) c.dns2
    obtain ⟨o5, h5, k5⟩ := store_property_value _ hpos _ (capacity_uninitialised _) c.dns3
    obtain ⟨o6, h6, k6⟩ := store_property_value _ hpos _ (capacity_uninitialised _) c.dns4
    obtain ⟨o7, h7, k7⟩ := store_property_value _ hpos _ (capacity_uninitialised _) c.server
    obtain ⟨o8, h8, k8⟩ := store_property_value _ hpos _ (capacity_uninitialised _) c.vendorInfo
    obtain ⟨o9, h9, k9⟩ := store_property_value _ hpos _ (capacity_uninitialised _) c.domains
    obtain ⟨o10, h10, k10⟩ := store_property_value _ hpos _ (capacity_uninitialised _) c.mtu
    refine ⟨⟨o1, o2, o3, o4, o5, o6, o7, o8, o9, o10⟩, ?_, ?_⟩
    · simp [dhcp_get_results_stores, getDhcpResults_buffers, h1, h2, h3, h4, h5, h6, h7, h8, h9,
        h10]
    · simp [DhcpBuffers.all_capacity, k1, k2, k3, k4, k5, k6, k7, k8, k9, k10]
  · obtain ⟨o1, h1, k1⟩ := store_property_value _ hpos _ (capacity_zeroed _) c6.ipaddr
    obtain ⟨o2, h2, k2⟩ := store_property_value _ hpos _ (capacity_zeroed _) c6.dns1
    obtain ⟨o3, h3, k3⟩ := store_property_value _ hpos _ (capacity_zeroed _) c6.dns2
    refine ⟨⟨o1, o2, o3⟩, ?_, ?_⟩
    · simp [dhcpv6_do_request_stores, runDhcpv6Common_buffers, h1, h2, h3]
    · simp [Dhcpv6Buffers.all_capacity, k1, k2, k3]

theorem value_buffers_never_overrun_witness :
    0 < 92 ∧
    (∃ out, dhcp_get_results_stores 92 long_dhcp_content (getDhcpResults_buffers 92)
        = some out ∧
      out.all_capacity 92 = true) ∧
    (∃ out, dhcpv6_do_request_stores 92 long_dhcpv6_content (runDhcpv6Common_buffers 92)
        = some out ∧
      out.all_capacity 92 = true) :=
  ⟨by decide, value_buffers_never_overrun 92 (by decide) long_dhcp_content long_dhcpv6_content⟩

/-! ## `getRaFlags` -/

/-- The outcomes the property lists: `getRaFlags` returns -1 when the file cannot be opened, -2
when the read fails, and for a byte `c` read, `c - 48` when `48 ≤ c ≤ 50` (the characters 0 to
2) and -3 otherwise; in every outcome, end of file included, the result lies between -3 and
2. -/
theorem getRaFlags_listed_outcomes (fd : Int) (rd : ReadOutcome) (stale c : Fin 256) :
    (fd < 0 → android_net_utils_getRaFlags fd rd stale = -1) ∧
    (0 ≤ fd → android_net_utils_getRaFlags fd .failed stale = -2) ∧
    (0 ≤ fd → 48 ≤ c.val → c.val ≤ 50 →
      android_net_utils_getRaFlags fd (.byte c) stale = (c.val : Int) - 48) ∧
    (0 ≤ fd → ¬ (48 ≤ c.val ∧ c.val ≤ 50) →
      android_net_utils_getRaFlags fd (.byte c) stale = -3) ∧
    (-3 ≤ android_net_utils_getRaFlags fd rd stale ∧
      android_net_utils_getRaFlags fd rd stale ≤ 2) := by
  refine ⟨?_, ?_, ?_, ?_, ?_⟩
  · intro h; simp [android_net_utils_getRaFlags, h]
  · intro h
    simp [android_net_utils_getRaFlags, ReadOutcome.len, Int.not_lt.mpr h]
  · intro h h1 h2
    simp [android_net_utils_getRaFlags, ReadOutcome.len, ReadOutcome.flags, Int.not_lt.mpr h,
      h1, h2]
  · intro h hc
    simp only [android_net_utils_getRaFlags, ReadOutcome.len, ReadOutcome.flags,
      Int.not_lt.mpr h, if_false]
    simp [hc]
  · simp only [android_net_utils_getRaFlags]
    split_ifs <;> omega

/-- C12: the code at the failing input. The file opens and the `read` returns 0 without storing a
byte; the result is then computed from what the uninitialised `flags` held: 1 when that was
`0x31` (the character 1), -3 when it was `0x78` (the character x). The result is non-negative
although no byte was read, and it is not determined by the outcome of reading the file. -/
theorem getRaFlags_reads_nothing :
    ReadOutcome.len .nothing = 0 ∧
    android_net_utils_getRaFlags 3 .nothing 0x31 = 1 ∧
    android_net_utils_getRaFlags 3 .nothing 0x78 = -3 := by
  decide

end android
